import Mathlib

/-!
Shallow embedding of the `User` controller of the frappe repository
(`frappe/core/doctype/user/user.py`) and proofs about its validation
pipeline, role reconciliation, password policy, reset tokens, sign-up,
username handling and reserved-identity protections.

External collaborators (database lookups, the strength estimator, hashing,
random generation, localization, email delivery, caches) are supplied
through an `Env` record of parameters; the control flow and data
transformations of `user.py` itself are translated directly.
Python truthiness of string fields is modelled by comparison with `""`,
and `None`-valued string fields are likewise modelled as `""`.
-/

namespace FrappeUser

/-- Modelled from the spec: the two reserved identities with fixed
protections (`STANDARD_USERS` is imported by `user.py` from the frappe
package root, which is outside the provided sources); per the spec these
are Administrator and Guest. -/
def STANDARD_USERS : List String := ["Administrator", "Guest"]

/-- Python `str.strip(" @")`: drop leading and trailing spaces and `@`
characters (used by `validate_username`). -/
def stripSpaceAt (s : String) : String :=
  let p : Char → Bool := fun c => c = ' ' || c = '@'
  String.mk (((s.toList.dropWhile p).reverse.dropWhile p).reverse)

/-- Python `str.strip()`: drop leading and trailing whitespace. -/
def pyStrip (s : String) : String :=
  String.mk (((s.toList.dropWhile Char.isWhitespace).reverse.dropWhile Char.isWhitespace).reverse)

/-- Python `str.lower()` on the ASCII range. -/
def pyLower (s : String) : String :=
  String.mk (s.toList.map Char.toLower)

/-- One row of the `roles` / `role_profiles` style traversal of
`ensure_unique_roles`: iterate over a copy of the list, removing a row
whose value is empty or already seen (`seen` collects every visited
value, matching the Python `exists` set). -/
def dedupeNonempty (seen : List String) : List String → List String
  | [] => []
  | r :: rest =>
    if r = "" ∨ r ∈ seen then dedupeNonempty (r :: seen) rest
    else r :: dedupeNonempty (r :: seen) rest

/-- Traversal of `ensure_unique_role_profiles`: drop a row whose value was
already seen (empty values are kept, matching the source). -/
def dedupeKeepFirst (seen : List String) : List String → List String
  | [] => []
  | r :: rest =>
    if r ∈ seen then dedupeKeepFirst (r :: seen) rest
    else r :: dedupeKeepFirst (r :: seen) rest

/-- Result of the external strength estimator
(`frappe.utils.password_strength.test_password_strength`) together with
the policy flag computed by `test_password_strength` in `user.py`. -/
structure StrengthResult where
  score : Nat
  warning : String
  suggestions : List String
  policyPassed : Bool
  deriving Repr, DecidableEq

/-- What the whitelisted `test_password_strength` returns: `emptyDict`
models the `return {}` taken when the policy is disabled, `noneResult`
models the implicit `return None` when the candidate password is falsy,
and `result` carries the scored outcome. -/
inductive StrengthOutcome where
  | emptyDict
  | noneResult
  | result (r : StrengthResult)
  deriving Repr, DecidableEq

/-- Environment: every database read, framework utility and system
setting consumed by `user.py`, as parameters. String-valued options use
`""` for "unset". -/
structure Env where
  /-- `Role Profile` catalog: profile name to the roles of its child table. -/
  roleProfileRoles : String → List String := fun _ => []
  /-- Names of `Role` records with `disabled = 1`. -/
  disabledRoles : List String := []
  /-- `desk_access` flag of a `Role` record. -/
  deskAccess : String → Bool := fun _ => false
  /-- `is_standard` field of a `User Type` record. -/
  isStandardUserType : String → Bool := fun t => t = "System User" || t = "Website User"
  /-- `role` field of a non-standard `User Type` record (`""` = unset). -/
  userTypeRole : String → String := fun _ => ""
  /-- `user_linked_with_permission_on_doctype(user_type_doc, name)`. -/
  userLinkedWithPermission : String → Bool := fun _ => false
  /-- Block list installed by `user_type_doc.update_modules_in_user`. -/
  userTypeBlockModules : String → List String := fun _ => []
  /-- `block_modules` child table of a `Module Profile` record. -/
  moduleProfileBlocks : String → List String := fun _ => []
  /-- `frappe.utils.validate_email_address(addr, throw=True)` succeeds. -/
  validEmail : String → Bool := fun _ => true
  /-- System setting `enable_password_policy`. -/
  passwordPolicyEnabled : Bool := false
  /-- System setting `minimum_password_score` (via `cint`). -/
  minimumPasswordScore : Nat := 0
  /-- Estimator score (0..4) for a password given contextual user inputs. -/
  strengthScore : String → List String → Nat := fun _ _ => 3
  /-- Estimator feedback warning. -/
  strengthWarning : String → List String → String := fun _ _ => ""
  /-- Estimator feedback suggestions, in order. -/
  strengthSuggestions : String → List String → List String := fun _ _ => []
  /-- `frappe.flags.in_test`. -/
  inTest : Bool := false
  /-- `username_exists`: another user already holds this username. -/
  usernameTaken : String → Bool := fun _ => false
  /-- `frappe.scrub`. -/
  scrub : String → String := fun s => s
  /-- `get_system_timezone()`. -/
  systemTimezone : String := "UTC"
  /-- `frappe.generate_hash(length=39)` for the frappe social login id. -/
  generatedHash : String := "h"
  /-- `frappe.utils.escape_html`. -/
  escapeHtml : String → String := fun s => s
  /-- `is_signup_disabled()`. -/
  signupDisabled : Bool := false
  /-- `frappe.db.get("User", {"email": email})`: `none` when no user has
  this email, otherwise `some enabled`. -/
  userByEmail : String → Option Bool := fun _ => none
  /-- `frappe.db.get_creation_count("User", 60)`. -/
  recentUserCreations : Nat := 0
  /-- `frappe.local.conf.throttle_user_limit` (default 60). -/
  throttleUserLimit : Nat := 60
  /-- `frappe.flags.in_import`. -/
  inImport : Bool := false
  /-- `Portal Settings.default_role` (`""` = unset). -/
  portalDefaultRole : String := ""
  /-- `random_string(10)` used as the initial sign-up password. -/
  randomPassword : String := "r"
  /-- Welcome-email dispatch raises (caught inside `sign_up`). -/
  welcomeEmailFails : Bool := false
  /-- System setting `reset_password_link_expiry_duration` in seconds
  (`0` = no expiry), via `cint`. -/
  resetPasswordLinkExpiry : Nat := 0
  /-- `MAX_PASSWORD_SIZE` from `frappe.auth`. -/
  maxPasswordSize : Nat := 512
  /-- Contextual strings of the session user fetched by
  `test_password_strength` when no `user_data` is passed. -/
  sessionUserData : List String := []
  /-- `frappe.utils.data.sha256_hash` (one-way hash of the raw token). -/
  sha256 : String → String := fun s => String.append "#" s
  /-- `frappe.generate_hash()`: the raw reset token. -/
  generatedKey : String := "k"
  /-- `login_manager.check_password(session_user, old_password)` succeeds. -/
  oldPasswordValid : Bool := false

/-- The in-memory `User` document: the fields read or written by the
validation pipeline and the endpoints under proof. Child tables are
modelled by the lists of their link values (`roles[i].role`,
`role_profiles[i].role_profile`, `user_emails[i].email_account`,
`block_modules[i].module`); `social_logins` keeps `(provider, userid)`
pairs. -/
structure UserDoc where
  name : String := ""
  email : String := ""
  first_name : String := ""
  middle_name : String := ""
  last_name : String := ""
  full_name : String := ""
  birth_date : String := ""
  new_password : String := ""
  enabled : Bool := true
  user_type : String := ""
  roles : List String := []
  role_profiles : List String := []
  role_profile_name : String := ""
  module_profile : String := ""
  block_modules : List String := []
  user_emails : List String := []
  user_image : String := ""
  time_zone : String := ""
  language : String := ""
  social_logins : List (String × String) := []
  username : String := ""
  university : String := ""
  major : String := ""
  send_welcome_email : Bool := false
  thread_notify : Bool := true
  send_me_a_copy : Bool := true
  allowed_in_mentions : Bool := true
  /-- `self.is_new()` during this save. -/
  isNew : Bool := false
  /-- `self.flags.ignore_password_policy`. -/
  flagsIgnorePasswordPolicy : Bool := false
  deriving Repr, DecidableEq

/-- Per-save document state threaded through the pipeline: the document,
the private `__new_password` holder, and the user-facing informational
messages emitted with `msgprint`. -/
structure DocState where
  user : UserDoc := {}
  newPasswordHolder : String := ""
  msgs : List String := []
  deriving Repr, DecidableEq

/-- `test_password_strength` (whitelisted module function): returns `{}`
when the policy is off; otherwise scores a truthy candidate and marks
`password_policy_validation_passed` true exactly when the score is truthy
(nonzero) and at least the configured minimum. -/
def test_password_strength (env : Env) (new_password : String)
    (user_data : List String) : StrengthOutcome :=
  if ¬ env.passwordPolicyEnabled then .emptyDict
  else if new_password ≠ "" then
    let score := env.strengthScore new_password user_data
    .result
      { score := score
        warning := env.strengthWarning new_password user_data
        suggestions := env.strengthSuggestions new_password user_data
        policyPassed := score ≠ 0 ∧ env.minimumPasswordScore ≤ score }
  else .noneResult

/-- Message thrown by `handle_password_test_fail`: the feedback warning
followed by the ordered suggestions, space-joined. -/
def handle_password_test_fail (r : StrengthResult) : String :=
  String.intercalate " " (r.warning :: r.suggestions)

/-- Whether a strength outcome passes the callers' feedback gate: `{}`
(policy off) and `None` carry no feedback dictionary, so the callers'
`if feedback and not passed` check does not reject them. -/
def outcomePassed : StrengthOutcome → Bool
  | .result r => r.policyPassed
  | .emptyDict => true
  | .noneResult => true

/-- Contextual user inputs passed by `password_strength_test`. -/
def strengthUserData (u : UserDoc) : List String :=
  [u.first_name, u.middle_name, u.last_name, u.email, u.birth_date]

/-- `password_strength_test` as a guard: the error message it throws, if
any, for the captured transient password. -/
def password_strength_test_error (env : Env) (d : DocState) : Option String :=
  if env.inTest then none
  else if d.user.flagsIgnorePasswordPolicy then none
  else if d.newPasswordHolder = "" then none
  else
    match test_password_strength env d.newPasswordHolder (strengthUserData d.user) with
    | .result r => if r.policyPassed then none else some (handle_password_test_fail r)
    | _ => none

/-- First pipeline statement: capture `new_password` into the private
holder and blank the persisted field. -/
def clear_new_password (d : DocState) : DocState :=
  { d with
    user := { d.user with new_password := "" }
    newPasswordHolder := d.user.new_password }

/-- For a non-reserved identity, `self.email = self.name` (the email
syntax check is the guard `validate_email_type_error`). -/
def set_email_from_name (d : DocState) : DocState :=
  { d with
    user := { d.user with
      email := if d.user.name ∈ STANDARD_USERS then d.user.email else d.user.name } }

/-- Guard of `validate_email_type(self.name)` for non-reserved users. -/
def validate_email_type_error (env : Env) (d : DocState) : Option String :=
  if d.user.name ∉ STANDARD_USERS ∧ ¬ env.validEmail (pyStrip d.user.name) then
    some "Invalid Email Address"
  else none

/-- `move_role_profile_name_to_role_profiles`: migrate the deprecated
single-profile field into the child table (skipping an already present
value) and clear it. -/
def move_role_profile_name_to_role_profiles (u : UserDoc) : UserDoc :=
  { u with
    role_profiles :=
      if u.role_profile_name ≠ "" ∧ u.role_profile_name ∉ u.role_profiles then
        u.role_profiles ++ [u.role_profile_name]
      else u.role_profiles
    role_profile_name := "" }

/-- `append_roles`: append each given role that is not already present
(membership is checked against the roles at entry, as in the source). -/
def append_roles (u : UserDoc) (rs : List String) : UserDoc :=
  { u with roles := u.roles ++ rs.filter (fun r => r ∉ u.roles) }

/-- Union of roles contributed by the given profiles; the Python code
collects them into a set, modelled as a first-occurrence deduplicated
list (only its membership is ever used). -/
def profileRolesUnion (env : Env) (profiles : List String) : List String :=
  dedupeKeepFirst [] (profiles.flatMap env.roleProfileRoles)

/-- `populate_role_profile_roles`: no-op when no profile is assigned;
reserved identities get `role_profiles` forced empty; otherwise keep only
roles in the profile union and append the missing ones (`append_roles`
checks membership against the roles present after the filter). -/
def populate_role_profile_roles (env : Env) (u : UserDoc) : UserDoc :=
  { u with
    roles :=
      if u.role_profiles = [] ∨ u.name ∈ STANDARD_USERS then u.roles
      else
        let newRoles := profileRolesUnion env u.role_profiles
        let kept := u.roles.filter (fun r => r ∈ newRoles)
        kept ++ newRoles.filter (fun r => r ∉ kept)
    role_profiles :=
      if u.role_profiles = [] then u.role_profiles
      else if u.name ∈ STANDARD_USERS then [] else u.role_profiles }

/-- `check_roles_added`: informational message for a newly created System
User without roles. -/
def check_roles_added (d : DocState) : DocState :=
  { d with
    msgs := d.msgs ++
      (if d.user.user_type ≠ "System User" ∨ d.user.roles ≠ [] ∨ ¬ d.user.isNew then []
      else ["Newly created user " ++ d.user.name ++ " has no roles enabled."]) }

/-- `has_desk_access`: some assigned role carries `desk_access` (the
empty role list short-circuits to false, as in the source). -/
def has_desk_access (env : Env) (u : UserDoc) : Bool :=
  u.roles.any env.deskAccess

/-- Condition of the first branch of `set_system_user`: a truthy
`user_type` naming a non-standard `User Type` record. -/
def overriddenUserType (env : Env) (u : UserDoc) : Prop :=
  u.user_type ≠ "" ∧ ¬ env.isStandardUserType u.user_type

instance (env : Env) (u : UserDoc) : Decidable (overriddenUserType env u) :=
  inferInstanceAs (Decidable (_ ∧ _))

/-- `set_system_user`, inlining `set_roles_and_modules_based_on_user_type`
(the delegation branch taken when the type is overridden and the name is
not one of the fixed reserved mappings): reset roles to the type's fixed
role when the user passes the permission linkage check, and let the type
install its module block list; without an override the type is derived
from desk access of the current roles. -/
def set_system_user (env : Env) (d : DocState) : DocState :=
  { d with
    user := { d.user with
      user_type :=
        if overriddenUserType env d.user then
          if d.user.name = "Administrator" then "System User"
          else if d.user.name = "Guest" then "Website User"
          else d.user.user_type
        else if has_desk_access env d.user then "System User" else "Website User"
      roles :=
        if overriddenUserType env d.user ∧ d.user.name ≠ "Administrator" ∧
            d.user.name ≠ "Guest" ∧ env.userTypeRole d.user.user_type ≠ "" then
          if env.userLinkedWithPermission d.user.name then [env.userTypeRole d.user.user_type]
          else []
        else d.user.roles
      block_modules :=
        if overriddenUserType env d.user ∧ d.user.name ≠ "Administrator" ∧ d.user.name ≠ "Guest" then
          env.userTypeBlockModules d.user.user_type
        else d.user.block_modules }
    msgs := d.msgs ++
      (if overriddenUserType env d.user ∧ d.user.name ≠ "Administrator" ∧
          d.user.name ≠ "Guest" ∧ env.userTypeRole d.user.user_type ≠ "" ∧
          env.userLinkedWithPermission d.user.name then
        ["Role has been set as per the user type " ++ d.user.user_type]
      else []) }

/-- `set_full_name`: first and last name, space-joined, empty parts
skipped. -/
def set_full_name (u : UserDoc) : UserDoc :=
  { u with full_name := String.intercalate " " ([u.first_name, u.last_name].filter (fun s => s ≠ "")) }

/-- Guard of `check_enable_disable`: disabling a reserved identity
throws. -/
def check_enable_disable_error (u : UserDoc) : Option String :=
  if ¬ u.enabled ∧ u.name ∈ STANDARD_USERS then
    some ("User " ++ u.name ++ " cannot be disabled")
  else none

/-- Surviving effect of `check_enable_disable` /
`disable_email_fields_if_user_disabled` (session termination and
notification toggling are external side effects). -/
def check_enable_disable_ok (u : UserDoc) : UserDoc :=
  { u with
    thread_notify := u.thread_notify && u.enabled
    send_me_a_copy := u.send_me_a_copy && u.enabled
    allowed_in_mentions := u.allowed_in_mentions && u.enabled }

/-- `ensure_unique_roles`: drop repeated and empty role references. -/
def ensure_unique_roles (u : UserDoc) : UserDoc :=
  { u with roles := dedupeNonempty [] u.roles }

/-- `ensure_unique_role_profiles`: drop repeated profile references. -/
def ensure_unique_role_profiles (u : UserDoc) : UserDoc :=
  { u with role_profiles := dedupeKeepFirst [] u.role_profiles }

/-- `remove_all_roles_for_guest`: Guest keeps only the Guest role. -/
def remove_all_roles_for_guest (u : UserDoc) : UserDoc :=
  { u with roles := if u.name = "Guest" then u.roles.filter (fun r => r = "Guest") else u.roles }

/-- The username candidate after the new-document defaulting rule. -/
def usernameCandidate (env : Env) (u : UserDoc) : String :=
  if u.username = "" ∧ u.isNew ∧ u.first_name ≠ "" then env.scrub u.first_name else u.username

/-- `suggest_username`: first candidate `scrub(first_name)`, then
`scrub(first_name + " " + last_name)`; a candidate is suggested when it
differs from the (colliding) current username and is not taken. Returns
`""` when nothing can be suggested. -/
def suggest_username (env : Env) (current : String) (first_name last_name : String) : String :=
  let check : String → String := fun s =>
    if current ≠ s ∧ ¬ env.usernameTaken s then s else ""
  let s1 := check (env.scrub first_name)
  if s1 ≠ "" then s1 else check (env.scrub (first_name ++ " " ++ last_name))

/-- `validate_username`: default the username of a new document from the
first name, strip spaces and `@`, and on collision silently blank it
(with an informational message and a suggestion for System Users). Never
throws. -/
def validate_username (env : Env) (d : DocState) : DocState :=
  let c0 := usernameCandidate env d.user
  let c1 := stripSpaceAt c0
  { d with
    user := { d.user with
      username := if c0 = "" then c0 else if env.usernameTaken c1 then "" else c1 }
    msgs := d.msgs ++
      (if c0 ≠ "" ∧ env.usernameTaken c1 ∧ d.user.user_type = "System User" then
        let sug := suggest_username env c1 d.user.first_name d.user.last_name
        ["Username " ++ c1 ++ " already exists"] ++
          (if sug ≠ "" then ["Suggested Username: " ++ sug] else [])
      else []) }

/-- `remove_disabled_roles`: drop roles disabled at the system level. -/
def remove_disabled_roles (env : Env) (u : UserDoc) : UserDoc :=
  { u with roles := u.roles.filter (fun r => decide (r ∉ env.disabledRoles)) }

/-- Guard of `validate_user_email_inbox`: the same email account listed
twice among the user's mailboxes throws. -/
def validate_user_email_inbox_error (u : UserDoc) : Option String :=
  if u.user_emails.length ≠ (dedupeKeepFirst [] u.user_emails).length then
    some "Email Account added multiple times"
  else none

/-- `validate_allowed_modules`: install the assigned module profile's
block list. -/
def validate_allowed_modules (env : Env) (u : UserDoc) : UserDoc :=
  { u with
    block_modules :=
      if u.module_profile ≠ "" then env.moduleProfileBlocks u.module_profile
      else u.block_modules }

/-- Guard of `validate_user_image`: an attached image longer than 2000
characters throws. -/
def validate_user_image_error (u : UserDoc) : Option String :=
  if u.user_image ≠ "" ∧ u.user_image.length > 2000 then
    some "Not a valid User Image."
  else none

/-- `set_time_zone`: default to the system timezone when unset. -/
def set_time_zone (env : Env) (u : UserDoc) : UserDoc :=
  { u with time_zone := if u.time_zone = "" then env.systemTimezone else u.time_zone }

/-- Normalize the sentinel `"Loading..."` language to unset. -/
def normalize_loading_language (u : UserDoc) : UserDoc :=
  { u with language := if u.language = "Loading..." then "" else u.language }

/-- `get_social_login_userid`: userid of the first entry of the given
provider. -/
def get_social_login_userid (u : UserDoc) (provider : String) : Option String :=
  (u.social_logins.find? (fun p => p.1 = provider)).map (fun p => p.2)

/-- Final pipeline statement: a non-reserved identity without a truthy
frappe-provider social login id gets one generated. -/
def set_frappe_social_login (env : Env) (u : UserDoc) : UserDoc :=
  { u with
    social_logins :=
      if u.name ∉ ["Administrator", "Guest"] ∧ (get_social_login_userid u "frappe").getD "" = "" then
        u.social_logins ++ [("frappe", env.generatedHash)]
      else u.social_logins }

/-- The named statements of `User.validate`, in source order. -/
inductive StepName where
  | clearNewPassword
  | passwordStrengthTest
  | validateEmail
  | moveRoleProfileNameToRoleProfiles
  | populateRoleProfileRoles
  | checkRolesAdded
  | setSystemUser
  | setFullName
  | checkEnableDisable
  | ensureUniqueRoles
  | ensureUniqueRoleProfiles
  | removeAllRolesForGuest
  | validateUsername
  | removeDisabledRoles
  | validateUserEmailInbox
  | askPassUpdate
  | validateAllowedModules
  | validateUserImage
  | setTimeZone
  | normalizeLanguage
  | setSocialLoginUserid
  deriving Repr, DecidableEq

/-- Error raised by a pipeline step, if any (`none` for the steps that
cannot throw). -/
def stepError : StepName → Env → DocState → Option String
  | .passwordStrengthTest, env, d => password_strength_test_error env d
  | .validateEmail, env, d => validate_email_type_error env d
  | .checkEnableDisable, _, d => check_enable_disable_error d.user
  | .validateUserEmailInbox, _, d => validate_user_email_inbox_error d.user
  | .validateUserImage, _, d => validate_user_image_error d.user
  | _, _, _ => none

/-- State transformation of a pipeline step on the non-throwing path.
`askPassUpdate` refreshes a process-wide registry (an external side
effect) and leaves the document unchanged. -/
def stepOk : StepName → Env → DocState → DocState
  | .clearNewPassword, _, d => clear_new_password d
  | .passwordStrengthTest, _, d => d
  | .validateEmail, _, d => set_email_from_name d
  | .moveRoleProfileNameToRoleProfiles, _, d => { d with user := move_role_profile_name_to_role_profiles d.user }
  | .populateRoleProfileRoles, env, d => { d with user := populate_role_profile_roles env d.user }
  | .checkRolesAdded, _, d => check_roles_added d
  | .setSystemUser, env, d => set_system_user env d
  | .setFullName, _, d => { d with user := set_full_name d.user }
  | .checkEnableDisable, _, d => { d with user := check_enable_disable_ok d.user }
  | .ensureUniqueRoles, _, d => { d with user := ensure_unique_roles d.user }
  | .ensureUniqueRoleProfiles, _, d => { d with user := ensure_unique_role_profiles d.user }
  | .removeAllRolesForGuest, _, d => { d with user := remove_all_roles_for_guest d.user }
  | .validateUsername, env, d => validate_username env d
  | .removeDisabledRoles, env, d => { d with user := remove_disabled_roles env d.user }
  | .validateUserEmailInbox, _, d => d
  | .askPassUpdate, _, d => d
  | .validateAllowedModules, env, d => { d with user := validate_allowed_modules env d.user }
  | .validateUserImage, _, d => d
  | .setTimeZone, env, d => { d with user := set_time_zone env d.user }
  | .normalizeLanguage, _, d => { d with user := normalize_loading_language d.user }
  | .setSocialLoginUserid, env, d => { d with user := set_frappe_social_login env d.user }

/-- One pipeline step: throw the step's error or apply its
transformation. -/
def stepFun (s : StepName) (env : Env) (d : DocState) : Except String DocState :=
  match stepError s env d with
  | some m => .error m
  | none => .ok (stepOk s env d)

/-- Run steps in order, short-circuiting on the first failure. -/
def runSteps (env : Env) : List StepName → DocState → Except String DocState
  | [], d => .ok d
  | s :: rest, d =>
    match stepFun s env d with
    | .error m => .error m
    | .ok d2 => runSteps env rest d2

/-- Apply the non-throwing transformations of the steps in order. -/
def runPure (env : Env) : List StepName → DocState → DocState
  | [], d => d
  | s :: rest, d => runPure env rest (stepOk s env d)

/-- The statements of `User.validate`, in the exact source order. -/
def validateSteps : List StepName :=
  [ .clearNewPassword
  , .passwordStrengthTest
  , .validateEmail
  , .moveRoleProfileNameToRoleProfiles
  , .populateRoleProfileRoles
  , .checkRolesAdded
  , .setSystemUser
  , .setFullName
  , .checkEnableDisable
  , .ensureUniqueRoles
  , .ensureUniqueRoleProfiles
  , .removeAllRolesForGuest
  , .validateUsername
  , .removeDisabledRoles
  , .validateUserEmailInbox
  , .askPassUpdate
  , .validateAllowedModules
  , .validateUserImage
  , .setTimeZone
  , .normalizeLanguage
  , .setSocialLoginUserid ]

/-- `User.validate`: the full per-save validation pipeline. -/
def validate (env : Env) (d : DocState) : Except String DocState :=
  runSteps env validateSteps d

/-- The document produced by a successful run of the pipeline. -/
def validateOk (env : Env) (d : DocState) : DocState :=
  runPure env validateSteps d

/-- Index of a step in the pipeline. -/
def stepIndex (s : StepName) : Nat :=
  validateSteps.findIdx (fun t => t == s)

/-- Projection of a successful `Except` result. -/
def okValue {α : Type} : Except String α → Option α
  | .ok a => some a
  | .error _ => none

/-- Persisted per-user state read and written by the reset-token flow
(`reset_password`, `_get_user_for_update_password`, `update_password`).
Timestamps are seconds as naturals. -/
structure UpdUser where
  name : String := ""
  /-- Stored one-way hash of the reset token (`""` = cleared). -/
  reset_password_key : String := ""
  last_reset_password_key_generated_on : Nat := 0
  last_password_reset_date : Option Nat := none
  deriving Repr, DecidableEq

/-- `User.reset_password`: store the hash of a fresh random token and the
issuance time, and return the reset link embedding the raw token. Email
dispatch is an external side effect. -/
def user_reset_password (env : Env) (u : UpdUser) (now : Nat)
    (password_expired : Bool) : UpdUser × String :=
  ({ u with
      reset_password_key := env.sha256 env.generatedKey
      last_reset_password_key_generated_on := now },
    if password_expired then "/update-password?key=" ++ env.generatedKey ++ "&password_expired=true"
    else "/update-password?key=" ++ env.generatedKey)

/-- Outcome dictionary of `_get_user_for_update_password`. -/
inductive GetUserOutcome where
  | message (msg : String)
  | user (name : String)
  | neither
  deriving Repr, DecidableEq

/-- `_get_user_for_update_password`: with a token, hash it and look it up
against the stored hashes, then apply the configured expiry window
(0 = no expiry); with an old password, verify it for the session user
(raising `AuthenticationError` on mismatch). -/
def getUserForUpdatePassword (env : Env) (users : List UpdUser)
    (sessionUser key old_password : String) (now : Nat) : Except String GetUserOutcome :=
  if key ≠ "" then
    match users.find? (fun u => u.reset_password_key = env.sha256 key) with
    | none => .ok (.message "The reset password link has either been used before or is invalid")
    | some u =>
      if env.resetPasswordLinkExpiry ≠ 0 ∧
          now > u.last_reset_password_key_generated_on + env.resetPasswordLinkExpiry then
        .ok (.message "The reset password link has been expired")
      else .ok (.user u.name)
  else if old_password ≠ "" then
    if env.oldPasswordValid then .ok (.user sessionUser) else .error "AuthenticationError"
  else .ok .neither

/-- Result of the `update_password` endpoint. `thrown` models a
`frappe.throw` or an uncaught exception, `http410` the 410 response with
its message, and `loggedIn` the successful path (password updated,
session switched, a redirect path returned). -/
inductive UpdatePasswordResult where
  | thrown (msg : String)
  | http410 (msg : String)
  | loggedIn (user : String)
  deriving Repr, DecidableEq

/-- Tail of `update_password` after the size and strength gates: redeem
the token (or old password), and on success update the password, record
the reset date and clear the stored key. -/
def update_password_redeem (env : Env) (users : List UpdUser)
    (sessionUser key old_password : String) (now : Nat) :
    UpdatePasswordResult × List UpdUser :=
  match getUserForUpdatePassword env users sessionUser key old_password now with
  | .error m => (.thrown m, users)
  | .ok (.message m) => (.http410 m, users)
  | .ok .neither => (.thrown "KeyError: user", users)
  | .ok (.user n) =>
    (.loggedIn n,
      users.map (fun u =>
        if u.name = n then
          { u with reset_password_key := "", last_password_reset_date := some now }
        else u))

/-- Gates of `update_password` that run before any token work: the size
check and the password-policy check (a `noneResult` from
`test_password_strength` — policy on, empty password — makes the Python
`result.get` raise, modelled as an error). Returns the raised message, if
any. -/
def update_password_gate_error (env : Env) (new_password : String) : Option String :=
  if new_password.length > env.maxPasswordSize then
    some "Password size exceeded the maximum allowed size."
  else
    match test_password_strength env new_password env.sessionUserData with
    | .noneResult => some "AttributeError"
    | .result r => if r.policyPassed then none else some (handle_password_test_fail r)
    | .emptyDict => none

/-- `update_password` endpoint: reject oversized passwords before any
hashing work, enforce the password policy, then redeem and update. -/
def update_password (env : Env) (users : List UpdUser)
    (sessionUser new_password key old_password : String) (now : Nat) :
    UpdatePasswordResult × List UpdUser :=
  match update_password_gate_error env new_password with
  | some m => (.thrown m, users)
  | none => update_password_redeem env users sessionUser key old_password now

/-- Return value of `sign_up`, together with the users it inserted and
whether the "Temporarily Disabled" 429 page was set up (the code keeps
executing after `respond_as_web_page`). -/
structure SignupResult where
  status : Nat
  message : String
  created : List UserDoc
  responded429 : Bool
  deriving Repr, DecidableEq

/-- `sign_up` endpoint: refuse when sign-up is disabled; report an
existing email as already registered (status 0); otherwise construct a
new enabled Website User, insert it (autoname lowercases the trimmed
email; `before_insert` throttles; insert runs the validation pipeline),
apply the portal default signup role (a second save, re-running the
pipeline), and report status 1 — also when welcome-email dispatch fails,
which is caught. -/
def sign_up (env : Env) (email first_name last_name redirect_to university major : String) :
    Except String SignupResult :=
  if env.signupDisabled then .error "Sign Up is disabled"
  else
    match env.userByEmail email with
    | some true => .ok { status := 0, message := "Already Registered", created := [], responded429 := false }
    | some false => .ok { status := 0, message := "Registered but disabled", created := [], responded429 := false }
    | none =>
      let responded := env.recentUserCreations > 300
      let u0 : UserDoc :=
        { name := pyLower (pyStrip email)
          email := pyLower (pyStrip email)
          first_name := env.escapeHtml first_name
          last_name := env.escapeHtml last_name
          enabled := true
          university := university
          major := major
          new_password := env.randomPassword
          user_type := "Website User"
          send_welcome_email := true
          isNew := true
          flagsIgnorePasswordPolicy := true }
      if ¬ env.inImport ∧ env.recentUserCreations > env.throttleUserLimit then .error "Throttled"
      else
        match validate env { user := u0 } with
        | .error e => .error e
        | .ok d1 =>
          match
            (if env.portalDefaultRole ≠ "" then
              validate env { user := { append_roles d1.user [env.portalDefaultRole] with isNew := false } }
            else .ok d1) with
          | .error e => .error e
          | .ok d2 =>
            .ok { status := 1
                  message := "Please check your email for verification"
                  created := [d2.user]
                  responded429 := responded }

/-- `validate_rename`: reserved identities cannot be renamed; a new name
must pass the email syntax check. -/
def validate_rename (env : Env) (u : UserDoc) (old_name new_name : String) : Except String Unit :=
  if old_name ∈ STANDARD_USERS then .error ("User " ++ u.name ++ " cannot be renamed")
  else if ¬ env.validEmail (pyStrip new_name) then .error "Invalid Email Address"
  else .ok ()

/-- `on_trash`: reserved identities cannot be deleted; for the rest the
cascade removal of dependent records is external database work. -/
def on_trash (u : UserDoc) : Except String Unit :=
  if u.name ∈ STANDARD_USERS then .error ("User " ++ u.name ++ " cannot be deleted")
  else .ok ()

/-! Pipeline fixtures used by the witnesses and counterexamples below. -/

/-- Environment of the C1 counterexample: one role profile `P`
contributing roles `R` and `S`, with `R` disabled at the system level. -/
def c1env : Env :=
  { roleProfileRoles := fun p => if p = "P" then ["R", "S"] else []
    disabledRoles := ["R"] }

/-- Document of the C1 counterexample: a plain non-reserved user holding
profile `P`. -/
def c1doc : DocState :=
  { user := { name := "u@e.co", email := "u@e.co", first_name := "U", role_profiles := ["P"], isNew := true } }

/-- Environment of the C1 witness: profile `P` contributes `A` and `B`,
nothing disabled. -/
def c1envW : Env :=
  { roleProfileRoles := fun p => if p = "P" then ["A", "B"] else [] }

/-- Document of the C1 witness. -/
def c1docW : DocState :=
  { user := { name := "w@e.co", email := "w@e.co", first_name := "W", role_profiles := ["P"], isNew := true } }

/-- Pipeline result of the C1 witness. -/
def c1resW : DocState := (okValue (validate c1envW c1docW)).getD {}

/-- Environment of the C6 witness. -/
def c6env : Env := {}

/-- Document of the C6 witness: a save carrying a transient password. -/
def c6doc : DocState :=
  { user := { name := "c6@e.co", email := "c6@e.co", new_password := "s3cret" } }

/-- Pipeline result of the C6 witness. -/
def c6res : DocState := (okValue (validate c6env c6doc)).getD {}

/-- Environment of the C2 counterexample: policy on, configured minimum
0, and a candidate scoring 0. -/
def c2env : Env :=
  { passwordPolicyEnabled := true
    minimumPasswordScore := 0
    strengthScore := fun _ _ => 0
    strengthWarning := fun _ _ => "Too weak"
    strengthSuggestions := fun _ _ => ["Add another word"] }

/-- Environment of the C2 witness: policy on, minimum 2, every candidate
scoring 1. -/
def c2envW : Env :=
  { passwordPolicyEnabled := true
    minimumPasswordScore := 2
    strengthScore := fun _ _ => 1
    strengthWarning := fun _ _ => "Weak"
    strengthSuggestions := fun _ _ => ["Use more words", "Avoid repeats"] }

/-- Document of the C2 witness: a save carrying a weak transient
password. -/
def c2docW : DocState :=
  { user := { name := "c2@e.co", email := "c2@e.co", new_password := "pw" } }

/-- Single-user store of the C4/C5 witnesses. -/
def c4user : UpdUser := { name := "c4@e.co" }

/-- Environment of the C5 witness with a 5-second expiry window. -/
def c5env : Env := { resetPasswordLinkExpiry := 5 }

/-- Environment of the C7 witness: role `D` carries desk access. -/
def c7env : Env := { deskAccess := fun r => r = "D" }

/-- Document of the C7 witness: a standard-typed user holding role `D`. -/
def c7doc : DocState :=
  { user := { name := "c7@e.co", user_type := "System User", roles := ["D"] } }

/-- Environment of the second C7 witness instance: every named user type
is non-standard. -/
def c7envB : Env := { isStandardUserType := fun _ => false }

/-- Document of the second C7 witness instance: Administrator with an
overriding non-standard type. -/
def c7docB : DocState := { user := { name := "Administrator", user_type := "Custom" } }

/-- Document of the C8 witness: an attempt to save Administrator
disabled. -/
def c8doc : DocState := { user := { name := "Administrator", enabled := false } }

/-- Environment of the C8 witness. -/
def c8env : Env := {}

/-- Environment of the C9 counterexample: the portal default signup role
`R` carries desk access. -/
def c9env : Env := { portalDefaultRole := "R", deskAccess := fun r => r = "R" }

/-- Environment of the C9 witness: defaults, with welcome-email dispatch
failing (which the endpoint swallows). -/
def c9envW : Env := { welcomeEmailFails := true }

/-- Environment of the C4 witness. -/
def c4env : Env := {}

/-- Single-user store of the C5 witness. -/
def c5user : UpdUser := { name := "c5@e.co" }

/-- Environment of the second C5 witness instance: no expiry configured. -/
def c5envZ : Env := { resetPasswordLinkExpiry := 0 }

/-- Sign-up result of the C9 witness. -/
def c9resW : SignupResult :=
  (okValue (sign_up c9envW "w9@e.co" "W" "L" "" "" "")).getD
    { status := 0, message := "", created := [], responded429 := false }

/-- Environment of the C10 witness: the username `john` is taken by
another user. -/
def c10env : Env := { usernameTaken := fun s => s = "john" }

/-- Document of the C10 witness: a System User save colliding on the
username `john`. -/
def c10doc : DocState :=
  { user := { name := "j@e.co", username := "john", user_type := "System User",
              first_name := "John", last_name := "Doe" } }

end FrappeUser

namespace FrappeUser

/-! Basic equations and preservation lemmas for the pipeline runner. -/

@[simp] theorem runPure_nil (env : Env) (d : DocState) : runPure env [] d = d := rfl

@[simp] theorem runPure_cons (env : Env) (s : StepName) (ss : List StepName) (d : DocState) :
    runPure env (s :: ss) d = runPure env ss (stepOk s env d) := rfl

theorem stepFun_ok {s : StepName} {env : Env} {d d2 : DocState}
    (h : stepFun s env d = .ok d2) : d2 = stepOk s env d := by
  unfold stepFun at h
  split at h
  · exact absurd h (by simp)
  · exact (Except.ok.inj h).symm

theorem stepFun_ok_error {s : StepName} {env : Env} {d d2 : DocState}
    (h : stepFun s env d = .ok d2) : stepError s env d = none := by
  unfold stepFun at h
  split at h
  · exact absurd h (by simp)
  · assumption

/-- A successful pipeline run produces exactly the composition of the
steps' non-throwing transformations. -/
theorem runSteps_ok_eq {env : Env} :
    ∀ {ss : List StepName} {d r : DocState}, runSteps env ss d = .ok r → r = runPure env ss d := by
  intro ss
  induction ss with
  | nil =>
    intro d r h
    simp only [runSteps] at h
    exact (Except.ok.inj h).symm
  | cons s ts ih =>
    intro d r h
    simp only [runSteps] at h
    cases hf : stepFun s env d with
    | error m => rw [hf] at h; exact absurd h (by simp)
    | ok d2 =>
      rw [hf] at h
      rw [runPure_cons, ← stepFun_ok hf]
      exact ih h

/-- A successful pipeline run passed every guard: the step at any
position raised no error on the state reaching it. -/
theorem runSteps_ok_guard (env : Env) :
    ∀ (l1 : List StepName) (s : StepName) (l2 : List StepName) (d r : DocState),
      runSteps env (l1 ++ s :: l2) d = .ok r → stepError s env (runPure env l1 d) = none := by
  intro l1
  induction l1 with
  | nil =>
    intro s l2 d r h
    simp only [List.nil_append, runSteps] at h
    cases hf : stepFun s env d with
    | error m => rw [hf] at h; exact absurd h (by simp)
    | ok d2 => exact stepFun_ok_error hf
  | cons t ts ih =>
    intro s l2 d r h
    simp only [List.cons_append, runSteps] at h
    cases hf : stepFun t env d with
    | error m => rw [hf] at h; exact absurd h (by simp)
    | ok d2 =>
      rw [hf] at h
      rw [runPure_cons, ← stepFun_ok hf]
      exact ih s l2 _ r h

theorem validate_ok_eq {env : Env} {d r : DocState} (h : validate env d = .ok r) :
    r = validateOk env d :=
  runSteps_ok_eq h

/-! Field preservation across individual steps. -/

@[simp] theorem stepOk_name (s : StepName) (env : Env) (d : DocState) :
    (stepOk s env d).user.name = d.user.name := by
  cases s <;> rfl

@[simp] theorem stepOk_enabled (s : StepName) (env : Env) (d : DocState) :
    (stepOk s env d).user.enabled = d.user.enabled := by
  cases s <;> rfl

@[simp] theorem stepOk_isNew (s : StepName) (env : Env) (d : DocState) :
    (stepOk s env d).user.isNew = d.user.isNew := by
  cases s <;> rfl

theorem stepOk_new_password (s : StepName) (env : Env) (d : DocState)
    (h : s ≠ .clearNewPassword) :
    (stepOk s env d).user.new_password = d.user.new_password := by
  cases s <;> first | rfl | exact absurd rfl h

theorem stepOk_holder (s : StepName) (env : Env) (d : DocState)
    (h : s ≠ .clearNewPassword) :
    (stepOk s env d).newPasswordHolder = d.newPasswordHolder := by
  cases s <;> first | rfl | exact absurd rfl h

theorem stepOk_user_type (s : StepName) (env : Env) (d : DocState)
    (h : s ≠ .setSystemUser) :
    (stepOk s env d).user.user_type = d.user.user_type := by
  cases s <;> first | rfl | exact absurd rfl h

theorem stepOk_roles (s : StepName) (env : Env) (d : DocState)
    (h1 : s ≠ .populateRoleProfileRoles) (h2 : s ≠ .setSystemUser)
    (h3 : s ≠ .ensureUniqueRoles) (h4 : s ≠ .removeAllRolesForGuest)
    (h5 : s ≠ .removeDisabledRoles) :
    (stepOk s env d).user.roles = d.user.roles := by
  cases s <;>
    first
    | rfl
    | exact absurd rfl h1
    | exact absurd rfl h2
    | exact absurd rfl h3
    | exact absurd rfl h4
    | exact absurd rfl h5

theorem stepOk_role_profiles (s : StepName) (env : Env) (d : DocState)
    (h1 : s ≠ .moveRoleProfileNameToRoleProfiles) (h2 : s ≠ .populateRoleProfileRoles)
    (h3 : s ≠ .ensureUniqueRoleProfiles) :
    (stepOk s env d).user.role_profiles = d.user.role_profiles := by
  cases s <;>
    first
    | rfl
    | exact absurd rfl h1
    | exact absurd rfl h2
    | exact absurd rfl h3

/-! Field preservation across suffixes of the pipeline. -/

theorem runPure_name (env : Env) (ss : List StepName) (d : DocState) :
    (runPure env ss d).user.name = d.user.name := by
  induction ss generalizing d with
  | nil => rfl
  | cons s ts ih => rw [runPure_cons, ih, stepOk_name]

theorem runPure_enabled (env : Env) (ss : List StepName) (d : DocState) :
    (runPure env ss d).user.enabled = d.user.enabled := by
  induction ss generalizing d with
  | nil => rfl
  | cons s ts ih => rw [runPure_cons, ih, stepOk_enabled]

theorem runPure_new_password (env : Env) (ss : List StepName) (d : DocState)
    (h : .clearNewPassword ∉ ss) :
    (runPure env ss d).user.new_password = d.user.new_password := by
  induction ss generalizing d with
  | nil => rfl
  | cons s ts ih =>
    simp only [List.mem_cons, not_or] at h
    rw [runPure_cons, ih _ h.2, stepOk_new_password _ _ _ (Ne.symm h.1)]

theorem runPure_holder (env : Env) (ss : List StepName) (d : DocState)
    (h : .clearNewPassword ∉ ss) :
    (runPure env ss d).newPasswordHolder = d.newPasswordHolder := by
  induction ss generalizing d with
  | nil => rfl
  | cons s ts ih =>
    simp only [List.mem_cons, not_or] at h
    rw [runPure_cons, ih _ h.2, stepOk_holder _ _ _ (Ne.symm h.1)]

theorem runPure_user_type (env : Env) (ss : List StepName) (d : DocState)
    (h : .setSystemUser ∉ ss) :
    (runPure env ss d).user.user_type = d.user.user_type := by
  induction ss generalizing d with
  | nil => rfl
  | cons s ts ih =>
    simp only [List.mem_cons, not_or] at h
    rw [runPure_cons, ih _ h.2, stepOk_user_type _ _ _ (Ne.symm h.1)]

theorem runPure_append (env : Env) (l1 l2 : List StepName) (d : DocState) :
    runPure env (l1 ++ l2) d = runPure env l2 (runPure env l1 d) := by
  induction l1 generalizing d with
  | nil => rfl
  | cons s ts ih => rw [List.cons_append, runPure_cons, runPure_cons, ih]

/-! Membership and uniqueness of the deduplicating traversals. -/

theorem mem_dedupeKeepFirst {x : String} :
    ∀ {l seen : List String}, x ∈ dedupeKeepFirst seen l ↔ x ∈ l ∧ x ∉ seen := by
  intro l
  induction l with
  | nil => intro seen; simp [dedupeKeepFirst]
  | cons r rest ih =>
    intro seen
    simp only [dedupeKeepFirst]
    split
    case isTrue hc =>
      rw [ih]
      constructor
      · rintro ⟨h1, h2⟩
        simp only [List.mem_cons, not_or] at h2
        exact ⟨List.mem_cons_of_mem _ h1, h2.2⟩
      · rintro ⟨h1, h2⟩
        rcases List.mem_cons.mp h1 with h4 | h4
        · exact absurd (h4 ▸ hc) h2
        · refine ⟨h4, ?_⟩
          simp only [List.mem_cons, not_or]
          exact ⟨fun h5 => h2 (h5 ▸ hc), h2⟩
    case isFalse hc =>
      rw [List.mem_cons, ih]
      constructor
      · rintro (h1 | ⟨h1, h2⟩)
        · exact ⟨h1 ▸ List.mem_cons_self _ _, h1 ▸ hc⟩
        · simp only [List.mem_cons, not_or] at h2
          exact ⟨List.mem_cons_of_mem _ h1, h2.2⟩
      · rintro ⟨h1, h2⟩
        by_cases h3 : x = r
        · exact Or.inl h3
        · rcases List.mem_cons.mp h1 with h4 | h4
          · exact absurd h4 h3
          · refine Or.inr ⟨h4, ?_⟩
            simp only [List.mem_cons, not_or]
            exact ⟨h3, h2⟩

theorem mem_dedupeNonempty {x : String} :
    ∀ {l seen : List String}, x ∈ dedupeNonempty seen l ↔ x ∈ l ∧ x ∉ seen ∧ x ≠ "" := by
  intro l
  induction l with
  | nil => intro seen; simp [dedupeNonempty]
  | cons r rest ih =>
    intro seen
    simp only [dedupeNonempty]
    split
    case isTrue hc =>
      rw [ih]
      constructor
      · rintro ⟨h1, h2, h3⟩
        simp only [List.mem_cons, not_or] at h2
        exact ⟨List.mem_cons_of_mem _ h1, h2.2, h3⟩
      · rintro ⟨h1, h2, h3⟩
        rcases List.mem_cons.mp h1 with h4 | h4
        · exfalso
          rcases hc with h5 | h5
          · exact h3 (h4.trans h5)
          · exact h2 (h4 ▸ h5)
        · refine ⟨h4, ?_, h3⟩
          simp only [List.mem_cons, not_or]
          refine ⟨?_, h2⟩
          intro h5
          rcases hc with h6 | h6
          · exact h3 (h5.trans h6)
          · exact h2 (h5 ▸ h6)
    case isFalse hc =>
      simp only [not_or] at hc
      rw [List.mem_cons, ih]
      constructor
      · rintro (h1 | ⟨h1, h2, h3⟩)
        · subst h1
          exact ⟨List.mem_cons_self _ _, hc.2, hc.1⟩
        · simp only [List.mem_cons, not_or] at h2
          exact ⟨List.mem_cons_of_mem _ h1, h2.2, h3⟩
      · rintro ⟨h1, h2, h3⟩
        by_cases h4 : x = r
        · exact Or.inl h4
        · rcases List.mem_cons.mp h1 with h5 | h5
          · exact absurd h5 h4
          · refine Or.inr ⟨h5, ?_, h3⟩
            simp only [List.mem_cons, not_or]
            exact ⟨h4, h2⟩

theorem nodup_dedupeNonempty : ∀ {l seen : List String}, (dedupeNonempty seen l).Nodup := by
  intro l
  induction l with
  | nil => intro seen; simp [dedupeNonempty]
  | cons r rest ih =>
    intro seen
    simp only [dedupeNonempty]
    split
    · exact ih
    · refine List.Nodup.cons ?_ ih
      intro hmem
      rcases mem_dedupeNonempty.mp hmem with ⟨_, h2, _⟩
      exact h2 (List.mem_cons_self _ _)

theorem mem_profileRolesUnion {env : Env} {profiles : List String} {x : String} :
    x ∈ profileRolesUnion env profiles ↔ x ∈ profiles.flatMap env.roleProfileRoles := by
  simp [profileRolesUnion, mem_dedupeKeepFirst]

/-! Claim C1: role-profile reconciliation and role-table invariants. -/

/-- C1 counterexample: a non-reserved user with the non-empty profile
list `[P]`, where `P` contributes roles `R` and `S` and `R` is globally
disabled, finishes validation with roles `[S]` — not equal to the union
`{R, S}` contributed by the profiles, refuting the claimed exact
equality. -/
theorem C1_roles_union_counterexample :
    (okValue (validate c1env c1doc)).map (fun d2 => d2.user.roles) = some ["S"] ∧
    c1doc.user.name ∉ STANDARD_USERS ∧
    c1doc.user.role_profiles ≠ [] ∧
    "R" ∈ c1doc.user.role_profiles.flatMap c1env.roleProfileRoles ∧
    "R" ∉ (["S"] : List String) := by
  exact ⟨rfl, by decide, by decide, by decide, by decide⟩

/-- C1 (amended): after a completed validation, for every user the roles
table has no duplicate and no empty role reference, and a reserved
identity finishes with `role_profiles` empty; for a non-reserved user
whose `user_type` does not delegate to a non-standard `User Type` record
and whose legacy `role_profile_name` field is unset, a non-empty
`role_profiles` makes the final role set exactly the union of the
profile-contributed roles minus empty references and globally disabled
roles (the unamended exact-union equality fails when a profile
contributes a disabled or empty role, or when a non-standard user type
overrides the roles). -/
theorem C1_roles_reconciliation (env : Env) (d r : DocState)
    (hok : validate env d = .ok r) :
    (r.user.roles.Nodup ∧ "" ∉ r.user.roles) ∧
    (d.user.name ∈ STANDARD_USERS → r.user.role_profiles = []) ∧
    (d.user.name ∉ STANDARD_USERS →
      (d.user.user_type = "" ∨ env.isStandardUserType d.user.user_type = true) →
      d.user.role_profile_name = "" →
      d.user.role_profiles ≠ [] →
      ∀ x, x ∈ r.user.roles ↔
        (x ∈ d.user.role_profiles.flatMap env.roleProfileRoles ∧ x ≠ "" ∧
          x ∉ env.disabledRoles)) := by
  have hr := validate_ok_eq hok
  subst hr
  refine ⟨?_, ?_, ?_⟩
  · simp only [validateOk, validateSteps, runPure_cons, runPure_nil, stepOk,
      clear_new_password, set_email_from_name, move_role_profile_name_to_role_profiles,
      populate_role_profile_roles, check_roles_added, set_system_user, set_full_name,
      check_enable_disable_ok, ensure_unique_roles, ensure_unique_role_profiles,
      remove_all_roles_for_guest, validate_username, remove_disabled_roles,
      validate_allowed_modules, set_time_zone, normalize_loading_language,
      set_frappe_social_login]
    by_cases hg : d.user.name = "Guest" <;>
      simp only [hg, if_true, if_false, ite_true, ite_false, reduceIte] <;>
      constructor
    · exact List.Nodup.filter _ (List.Nodup.filter _ nodup_dedupeNonempty)
    · intro hmem
      simp only [List.mem_filter, mem_dedupeNonempty] at hmem
      exact hmem.1.1.2.2 rfl
    · exact List.Nodup.filter _ nodup_dedupeNonempty
    · intro hmem
      simp only [List.mem_filter, mem_dedupeNonempty] at hmem
      exact hmem.1.2.2 rfl
  · intro hstd
    simp only [validateOk, validateSteps, runPure_cons, runPure_nil, stepOk,
      clear_new_password, set_email_from_name, move_role_profile_name_to_role_profiles,
      populate_role_profile_roles, check_roles_added, set_system_user, set_full_name,
      check_enable_disable_ok, ensure_unique_roles, ensure_unique_role_profiles,
      remove_all_roles_for_guest, validate_username, remove_disabled_roles,
      validate_allowed_modules, set_time_zone, normalize_loading_language,
      set_frappe_social_login, hstd, ite_true, if_true]
    split
    · rw [if_neg (by simp)]
      rfl
    · split
      case isTrue h => rw [h]; rfl
      case isFalse h => rfl
  · intro hstd hut hrpn hrp x
    have hg : ¬ (d.user.name = "Guest") := fun h => hstd (by rw [h]; decide)
    simp only [validateOk, validateSteps, runPure_cons, runPure_nil, stepOk,
      clear_new_password, set_email_from_name, move_role_profile_name_to_role_profiles,
      populate_role_profile_roles, check_roles_added, set_system_user, set_full_name,
      check_enable_disable_ok, ensure_unique_roles, ensure_unique_role_profiles,
      remove_all_roles_for_guest, validate_username, remove_disabled_roles,
      validate_allowed_modules, set_time_zone, normalize_loading_language,
      set_frappe_social_login]
    rcases hut with hut | hut <;>
      simp only [overriddenUserType, hstd, hrpn, hrp, hg, hut, ne_eq, not_true_eq_false,
        not_false_eq_true, false_and, and_false, true_and, and_true, if_false, ite_false,
        if_true, ite_true, false_or, or_false, not_true, reduceIte, List.append_nil] <;>
      simp only [List.mem_filter, mem_dedupeNonempty, List.mem_append, decide_eq_true_eq,
        List.not_mem_nil, not_false_eq_true, and_true, mem_profileRolesUnion, true_and] <;>
      tauto

/-- C1 witness: a non-reserved user with profile `P` contributing `A`
and `B`, nothing disabled; validation succeeds, the role `A` lands in the
final role set, and the final table has no duplicates. -/
theorem C1_roles_reconciliation_witness :
    validate c1envW c1docW = .ok c1resW ∧
    c1docW.user.name ∉ STANDARD_USERS ∧
    c1docW.user.role_profile_name = "" ∧
    c1docW.user.role_profiles ≠ [] ∧
    ("A" ∈ c1resW.user.roles ↔
      ("A" ∈ c1docW.user.role_profiles.flatMap c1envW.roleProfileRoles ∧ "A" ≠ "" ∧
        "A" ∉ c1envW.disabledRoles)) ∧
    c1resW.user.roles.Nodup := by
  have h : validate c1envW c1docW = .ok c1resW := rfl
  have hthm := C1_roles_reconciliation c1envW c1docW c1resW h
  exact ⟨h, by decide, rfl, by decide,
    hthm.2.2 (by decide) (Or.inl rfl) rfl (by decide) "A", hthm.1.1⟩

/-! Claim C3: order of the validation pipeline steps. -/

/-- C3 counterexample: the claim asserts that applying the module
profile's block list precedes dropping globally disabled roles, which
precedes the duplicate mailbox check; in the code the module-profile step
runs after both. -/
theorem C3_spec_order_counterexample :
    ¬ (stepIndex .validateAllowedModules < stepIndex .removeDisabledRoles ∧
      stepIndex .removeDisabledRoles < stepIndex .validateUserEmailInbox) := by
  decide

/-- C3 (amended): on every save the pipeline executes dropping globally
disabled roles first, then the duplicate mailbox-reference check, then
(after the pending-mailbox registry update) the module-profile block-list
application; a username-validation step, absent from the spec's list,
runs between the Guest role strip and the disabled-roles drop. -/
theorem C3_pipeline_order :
    stepIndex .removeAllRolesForGuest < stepIndex .validateUsername ∧
    stepIndex .validateUsername < stepIndex .removeDisabledRoles ∧
    stepIndex .removeDisabledRoles < stepIndex .validateUserEmailInbox ∧
    stepIndex .validateUserEmailInbox < stepIndex .askPassUpdate ∧
    stepIndex .askPassUpdate < stepIndex .validateAllowedModules := by
  decide

/-! Claim C6: the transient password is captured and cleared. -/

/-- C6: on every save the pipeline's first step captures `new_password`
into the private holder and blanks the persisted field; a completed
validation leaves `new_password` empty (so it is never observable in the
persisted state), and re-running the clear step leaves the persisted
document unchanged. -/
theorem C6_new_password_transient (env : Env) (d r : DocState)
    (hok : validate env d = .ok r) :
    r.user.new_password = "" ∧
    r.newPasswordHolder = d.user.new_password ∧
    validateSteps.head? = some .clearNewPassword ∧
    (clear_new_password (clear_new_password d)).user = (clear_new_password d).user := by
  have hr : r = validateOk env d := validate_ok_eq hok
  subst hr
  refine ⟨?_, ?_, rfl, rfl⟩
  · show (runPure env validateSteps d).user.new_password = ""
    rw [validateSteps, runPure_cons, runPure_new_password _ _ _ (by decide)]
    rfl
  · show (runPure env validateSteps d).newPasswordHolder = d.user.new_password
    rw [validateSteps, runPure_cons, runPure_holder _ _ _ (by decide)]
    rfl

/-- C6 witness: a concrete save carrying the transient password
`"s3cret"` completes with the persisted field blanked and the holder
carrying the value. -/
theorem C6_new_password_transient_witness :
    validate c6env c6doc = .ok c6res ∧
    c6res.user.new_password = "" ∧ c6res.newPasswordHolder = "s3cret" := by
  have h : validate c6env c6doc = .ok c6res := rfl
  exact ⟨h, (C6_new_password_transient c6env c6doc c6res h).1,
    (C6_new_password_transient c6env c6doc c6res h).2.1⟩

/-! Claim C2: the password policy gate. -/

/-- C2 counterexample: with the policy enabled and a configured minimum
of 0, a candidate scoring 0 has score ≥ minimum, yet the code rejects it:
`password_policy_validation_passed` also requires a truthy (nonzero)
score, so acceptance is not `score ≥ minimum` for minimum 0. -/
theorem C2_minimum_zero_counterexample :
    c2env.passwordPolicyEnabled = true ∧
    c2env.minimumPasswordScore = 0 ∧
    c2env.minimumPasswordScore ≤ c2env.strengthScore "pw" [] ∧
    outcomePassed (test_password_strength c2env "pw" []) = false := by
  decide

/-- C2 (amended): with the policy enabled, a non-empty candidate is
accepted iff its strength score is nonzero and at least the configured
minimum (equivalently `score ≥ max(1, minimum)`); when not accepted, the
save's strength step raises with the feedback warning followed by the
ordered suggestions, space-joined, and the save aborts. -/
theorem C2_password_policy (env : Env) (d : DocState)
    (hpol : env.passwordPolicyEnabled = true)
    (hpw : d.user.new_password ≠ "")
    (htest : env.inTest = false)
    (hign : d.user.flagsIgnorePasswordPolicy = false) :
    (outcomePassed (test_password_strength env d.user.new_password (strengthUserData d.user)) = true ↔
      (env.strengthScore d.user.new_password (strengthUserData d.user) ≠ 0 ∧
        env.minimumPasswordScore ≤ env.strengthScore d.user.new_password (strengthUserData d.user))) ∧
    (outcomePassed (test_password_strength env d.user.new_password (strengthUserData d.user)) = false →
      stepError .passwordStrengthTest env (clear_new_password d) =
        some (String.intercalate " "
          (env.strengthWarning d.user.new_password (strengthUserData d.user) ::
            env.strengthSuggestions d.user.new_password (strengthUserData d.user))) ∧
      okValue (validate env d) = none) ∧
    (outcomePassed (test_password_strength env d.user.new_password (strengthUserData d.user)) = true →
      stepError .passwordStrengthTest env (clear_new_password d) = none) := by
  have hstep : stepError .passwordStrengthTest env (clear_new_password d) =
      password_strength_test_error env (clear_new_password d) := rfl
  refine ⟨?_, ?_, ?_⟩
  · simp [test_password_strength, hpol, hpw, outcomePassed]
  · intro hfail
    simp only [test_password_strength, hpol, hpw, if_true, if_false, ite_true, ite_false,
      ne_eq, not_true_eq_false, not_false_eq_true, reduceIte, outcomePassed,
      strengthUserData] at hfail
    constructor
    · rw [hstep]
      simp [password_strength_test_error, htest, hign, hpw, test_password_strength, hpol,
        handle_password_test_fail, clear_new_password, strengthUserData, hfail]
    · cases hv : validate env d with
      | error e => rfl
      | ok r =>
        exfalso
        have hguard := runSteps_ok_guard env [.clearNewPassword]
          .passwordStrengthTest
            [.validateEmail, .moveRoleProfileNameToRoleProfiles, .populateRoleProfileRoles,
             .checkRolesAdded, .setSystemUser, .setFullName, .checkEnableDisable,
             .ensureUniqueRoles, .ensureUniqueRoleProfiles, .removeAllRolesForGuest,
             .validateUsername, .removeDisabledRoles, .validateUserEmailInbox, .askPassUpdate,
             .validateAllowedModules, .validateUserImage, .setTimeZone, .normalizeLanguage,
             .setSocialLoginUserid] d r hv
        simp only [runPure_cons, runPure_nil, stepOk, stepError] at hguard
        simp [password_strength_test_error, htest, hign, hpw, test_password_strength, hpol,
          clear_new_password, strengthUserData, hfail] at hguard
  · intro hpass
    simp only [test_password_strength, hpol, hpw, if_true, if_false, ite_true, ite_false,
      ne_eq, not_true_eq_false, not_false_eq_true, reduceIte, outcomePassed,
      strengthUserData] at hpass
    rw [hstep]
    simp [password_strength_test_error, htest, hign, hpw, test_password_strength, hpol,
      clear_new_password, strengthUserData, hpass]

/-- C2 witness: minimum 2, score 1 — the candidate is not accepted, the
strength step raises with "Weak Use more words Avoid repeats", and the
save aborts. -/
theorem C2_password_policy_witness :
    c2envW.passwordPolicyEnabled = true ∧
    c2docW.user.new_password ≠ "" ∧
    outcomePassed (test_password_strength c2envW c2docW.user.new_password
      (strengthUserData c2docW.user)) = false ∧
    stepError .passwordStrengthTest c2envW (clear_new_password c2docW) =
      some "Weak Use more words Avoid repeats" ∧
    okValue (validate c2envW c2docW) = none := by
  have h := C2_password_policy c2envW c2docW rfl (by decide) rfl rfl
  have h2 := h.2.1 (by decide)
  refine ⟨rfl, by decide, by decide, ?_, h2.2⟩
  rw [h2.1]
  rfl

/-! Claim C4: reset tokens are single-use. -/

/-- C4: issuing a reset token and redeeming it immediately succeeds:
the redemption updates the password, records the reset date and clears
the stored `reset_password_key`; a second redemption with the same raw
token at any later time fails with HTTP 410 and the generic
invalid-or-used message (the stored hash is a sha256 digest, never the
empty string, so the cleared key can no longer match). -/
theorem C4_reset_token_single_use (env : Env) (x : UpdUser) (sess npw : String) (T t2 : Nat)
    (hgate : update_password_gate_error env npw = none)
    (hkey : env.generatedKey ≠ "")
    (hsha : env.sha256 env.generatedKey ≠ "")
    (x1 : UpdUser) (hx1 : x1 = (user_reset_password env x T false).1) :
    (update_password env [x1] sess npw env.generatedKey "" T).1 = .loggedIn x.name ∧
    (update_password env [x1] sess npw env.generatedKey "" T).2 =
      [{ x1 with reset_password_key := "", last_password_reset_date := some T }] ∧
    (update_password env ((update_password env [x1] sess npw env.generatedKey "" T).2)
        sess npw env.generatedKey "" t2).1 =
      .http410 "The reset password link has either been used before or is invalid" := by
  subst hx1
  have hexp : ¬ (env.resetPasswordLinkExpiry ≠ 0 ∧
      T > T + env.resetPasswordLinkExpiry) := by
    rintro ⟨h1, h2⟩; omega
  have hfirst : update_password env [(user_reset_password env x T false).1] sess npw
      env.generatedKey "" T =
      (.loggedIn x.name,
        [{ (user_reset_password env x T false).1 with
            reset_password_key := "", last_password_reset_date := some T }]) := by
    simp only [update_password, hgate, update_password_redeem, getUserForUpdatePassword,
      user_reset_password, hkey, ne_eq, not_false_eq_true, if_true, ite_true, reduceIte]
    rw [List.find?_cons_of_pos _ (by simp)]
    simp [hexp]
  refine ⟨by rw [hfirst], by rw [hfirst], ?_⟩
  rw [hfirst]
  simp only [update_password, hgate, update_password_redeem, getUserForUpdatePassword,
    hkey, ne_eq, not_false_eq_true, if_true, ite_true, reduceIte]
  rw [List.find?_cons_of_neg _ (by simp [Ne.symm hsha])]
  rfl

/-- C4 witness: a concrete issue-and-redeem round trip succeeds once and
fails as invalid-or-used on the second attempt. -/
theorem C4_reset_token_single_use_witness :
    update_password_gate_error c4env "np" = none ∧
    c4env.generatedKey ≠ "" ∧
    c4env.sha256 c4env.generatedKey ≠ "" ∧
    (update_password c4env [(user_reset_password c4env c4user 0 false).1]
        "s" "np" c4env.generatedKey "" 0).1 = .loggedIn "c4@e.co" ∧
    (update_password c4env
        ((update_password c4env [(user_reset_password c4env c4user 0 false).1]
          "s" "np" c4env.generatedKey "" 0).2)
        "s" "np" c4env.generatedKey "" 9).1 =
      .http410 "The reset password link has either been used before or is invalid" := by
  have h := C4_reset_token_single_use c4env c4user "s" "np" 0 9 (by decide) (by decide)
    (by decide) ((user_reset_password c4env c4user 0 false).1) rfl
  exact ⟨by decide, by decide, by decide, h.1, h.2.2⟩

/-! Claim C5: reset-token expiry window. -/

/-- C5: with a configured expiry window E > 0, a token issued at T
redeems successfully at T + E − 1 and fails as expired at T + E + 1;
with expiry 0 a token never expires. -/
theorem C5_reset_token_expiry (env : Env) (x : UpdUser) (sess npw : String) (E T t : Nat)
    (hgate : update_password_gate_error env npw = none)
    (hkey : env.generatedKey ≠ "")
    (hE : env.resetPasswordLinkExpiry = E)
    (x1 : UpdUser) (hx1 : x1 = (user_reset_password env x T false).1) :
    (0 < E →
      (update_password env [x1] sess npw env.generatedKey "" (T + E - 1)).1 = .loggedIn x.name) ∧
    (0 < E →
      (update_password env [x1] sess npw env.generatedKey "" (T + E + 1)).1 =
        .http410 "The reset password link has been expired") ∧
    (E = 0 →
      (update_password env [x1] sess npw env.generatedKey "" t).1 = .loggedIn x.name) := by
  subst hx1
  refine ⟨?_, ?_, ?_⟩
  · intro hpos
    have hexp : ¬ (env.resetPasswordLinkExpiry ≠ 0 ∧
        T + E - 1 > T + env.resetPasswordLinkExpiry) := by
      rintro ⟨h1, h2⟩; omega
    simp only [update_password, hgate, update_password_redeem, getUserForUpdatePassword,
      user_reset_password, hkey, ne_eq, not_false_eq_true, if_true, ite_true, reduceIte]
    rw [List.find?_cons_of_pos _ (by simp)]
    simp [hexp]
  · intro hpos
    have hexp : env.resetPasswordLinkExpiry ≠ 0 ∧
        T + E + 1 > T + env.resetPasswordLinkExpiry := by
      constructor
      · omega
      · rw [hE]; omega
    simp only [update_password, hgate, update_password_redeem, getUserForUpdatePassword,
      user_reset_password, hkey, ne_eq, not_false_eq_true, if_true, ite_true, reduceIte]
    rw [List.find?_cons_of_pos _ (by simp)]
    simp [hexp]
  · intro hzero
    have hexp : ¬ (env.resetPasswordLinkExpiry ≠ 0 ∧
        t > T + env.resetPasswordLinkExpiry) := by
      rintro ⟨h1, h2⟩; rw [hE, hzero] at h1; exact h1 rfl
    simp only [update_password, hgate, update_password_redeem, getUserForUpdatePassword,
      user_reset_password, hkey, ne_eq, not_false_eq_true, if_true, ite_true, reduceIte]
    rw [List.find?_cons_of_pos _ (by simp)]
    simp [hexp]

/-- C5 witness: expiry 5, issue at 0 — redemption at 4 succeeds and at 6
fails expired; with expiry 0, redemption at 77 succeeds. -/
theorem C5_reset_token_expiry_witness :
    update_password_gate_error c5env "np" = none ∧
    c5env.resetPasswordLinkExpiry = 5 ∧
    (update_password c5env [(user_reset_password c5env c5user 0 false).1]
        "s" "np" c5env.generatedKey "" 4).1 = .loggedIn "c5@e.co" ∧
    (update_password c5env [(user_reset_password c5env c5user 0 false).1]
        "s" "np" c5env.generatedKey "" 6).1 =
      .http410 "The reset password link has been expired" ∧
    (update_password c5envZ [(user_reset_password c5envZ c5user 0 false).1]
        "s" "np" c5envZ.generatedKey "" 77).1 = .loggedIn "c5@e.co" := by
  have h5 := C5_reset_token_expiry c5env c5user "s" "np" 5 0 77 (by decide) (by decide) rfl
    ((user_reset_password c5env c5user 0 false).1) rfl
  have h0 := C5_reset_token_expiry c5envZ c5user "s" "np" 0 0 77 (by decide) (by decide) rfl
    ((user_reset_password c5envZ c5user 0 false).1) rfl
  exact ⟨by decide, rfl, h5.1 (by decide), h5.2.1 (by decide), h0.2.2 rfl⟩

/-! Claim C7: derivation of the user type. -/

/-- C7: when `user_type` is unset or names a standard `User Type`, the
derived type is `System User` iff some current role carries desk access,
and `Website User` otherwise; when a non-standard `User Type` overrides,
the reserved identities map fixedly (Administrator to System User, Guest
to Website User). -/
theorem C7_user_type_derivation (env : Env) (d : DocState) :
    ((d.user.user_type = "" ∨ env.isStandardUserType d.user.user_type = true) →
      (((set_system_user env d).user.user_type = "System User" ↔
        has_desk_access env d.user = true) ∧
        ((set_system_user env d).user.user_type = "System User" ∨
          (set_system_user env d).user.user_type = "Website User"))) ∧
    ((d.user.user_type ≠ "" → env.isStandardUserType d.user.user_type = false →
      (d.user.name = "Administrator" → (set_system_user env d).user.user_type = "System User") ∧
      (d.user.name = "Guest" → (set_system_user env d).user.user_type = "Website User"))) := by
  constructor
  · intro hut
    have hov : ¬ overriddenUserType env d.user := by
      rcases hut with hut | hut <;> simp [overriddenUserType, hut]
    by_cases hd : has_desk_access env d.user <;>
      simp [set_system_user, hov, hd]
  · intro h1 h2
    have hov : overriddenUserType env d.user := ⟨h1, by simp [h2]⟩
    constructor <;> intro hn <;> simp [set_system_user, hov, hn]

/-- C7 witness: a user holding the desk-access role `D` under a standard
type derives `System User`; Administrator under a non-standard override
maps fixedly to `System User`. -/
theorem C7_user_type_derivation_witness :
    c7env.isStandardUserType c7doc.user.user_type = true ∧
    has_desk_access c7env c7doc.user = true ∧
    (set_system_user c7env c7doc).user.user_type = "System User" ∧
    c7envB.isStandardUserType c7docB.user.user_type = false ∧
    (set_system_user c7envB c7docB).user.user_type = "System User" := by
  have h1 := (C7_user_type_derivation c7env c7doc).1 (Or.inr rfl)
  have h2 := (C7_user_type_derivation c7envB c7docB).2 (by decide) rfl
  exact ⟨rfl, by decide, h1.1.mpr (by decide), rfl, h2.1 rfl⟩

/-! Claim C8: reserved identities cannot be disabled, renamed or
deleted. -/

/-- C8: for Administrator and Guest, a save that disables the account
raises and the pipeline never completes; renaming raises; deletion
raises. No such attempt succeeds. -/
theorem C8_reserved_identity_protected (env : Env) (d : DocState) (new_name : String)
    (h : d.user.name ∈ STANDARD_USERS) :
    (d.user.enabled = false →
      check_enable_disable_error d.user = some ("User " ++ d.user.name ++ " cannot be disabled") ∧
      okValue (validate env d) = none) ∧
    validate_rename env d.user d.user.name new_name =
      .error ("User " ++ d.user.name ++ " cannot be renamed") ∧
    on_trash d.user = .error ("User " ++ d.user.name ++ " cannot be deleted") := by
  refine ⟨?_, ?_, ?_⟩
  · intro henb
    constructor
    · simp [check_enable_disable_error, henb, h]
    · cases hv : validate env d with
      | error e => rfl
      | ok r =>
        exfalso
        have hguard := runSteps_ok_guard env
          [.clearNewPassword, .passwordStrengthTest, .validateEmail,
           .moveRoleProfileNameToRoleProfiles, .populateRoleProfileRoles, .checkRolesAdded,
           .setSystemUser, .setFullName] .checkEnableDisable
            [.ensureUniqueRoles, .ensureUniqueRoleProfiles, .removeAllRolesForGuest,
             .validateUsername, .removeDisabledRoles, .validateUserEmailInbox, .askPassUpdate,
             .validateAllowedModules, .validateUserImage, .setTimeZone, .normalizeLanguage,
             .setSocialLoginUserid] d r hv
        have hname := runPure_name env
          [.clearNewPassword, .passwordStrengthTest, .validateEmail,
           .moveRoleProfileNameToRoleProfiles, .populateRoleProfileRoles, .checkRolesAdded,
           .setSystemUser, .setFullName] d
        have henb2 := runPure_enabled env
          [.clearNewPassword, .passwordStrengthTest, .validateEmail,
           .moveRoleProfileNameToRoleProfiles, .populateRoleProfileRoles, .checkRolesAdded,
           .setSystemUser, .setFullName] d
        simp only [stepError] at hguard
        rw [check_enable_disable_error, hname, henb2, henb] at hguard
        simp [h] at hguard
  · simp [validate_rename, h]
  · simp [on_trash, h]

/-- C8 witness: saving Administrator disabled raises and aborts the
pipeline; renaming and deleting Administrator raise. -/
theorem C8_reserved_identity_protected_witness :
    c8doc.user.name ∈ STANDARD_USERS ∧
    c8doc.user.enabled = false ∧
    check_enable_disable_error c8doc.user = some "User Administrator cannot be disabled" ∧
    okValue (validate c8env c8doc) = none ∧
    validate_rename c8env c8doc.user c8doc.user.name "new@e.co" =
      .error "User Administrator cannot be renamed" ∧
    on_trash c8doc.user = .error "User Administrator cannot be deleted" := by
  have h := C8_reserved_identity_protected c8env c8doc "new@e.co" (by decide)
  have hd := h.1 rfl
  exact ⟨by decide, rfl, by rw [hd.1]; rfl, hd.2, by rw [h.2.1]; rfl, by rw [h.2.2]; rfl⟩

/-! Claim C9: the sign-up endpoint. -/

/-- C9 counterexample: with a configured portal default signup role that
carries desk access, a novel email still returns status 1 and creates
exactly one enabled user — but the follow-up save that applies the
default role re-derives `user_type`, leaving the created user a
`System User`, not a `Website User` as claimed. -/
theorem C9_sign_up_desk_role_counterexample :
    c9env.portalDefaultRole = "R" ∧
    c9env.deskAccess "R" = true ∧
    (okValue (sign_up c9env "n@e.co" "N" "L" "" "" "")).map
        (fun r => (r.status, r.created.map fun u => (u.enabled, u.user_type))) =
      some (1, [(true, "System User")]) := by
  exact ⟨rfl, by decide, rfl⟩

/-- C9 (amended): with sign-up enabled, an existing enabled email
returns (0, "Already Registered") and an existing disabled one returns
(0, "Registered but disabled"), in both cases creating nothing; a novel
email (whose normalized form is not a reserved name) creates, when no
portal default signup role is configured and the insert completes,
exactly one new enabled user with `user_type` "Website User" and returns
status 1 with a fixed message — the welcome-email dispatch outcome is
caught and never affects the result (the environment's
`welcomeEmailFails` flag is quantified over and unused). With a
configured desk-access default role, the created user is upgraded to
System User by the follow-up role save. -/
theorem C9_sign_up (env : Env) (email first_name last_name redirect_to university major : String)
    (hsd : env.signupDisabled = false) :
    (env.userByEmail email = some true →
      sign_up env email first_name last_name redirect_to university major =
        .ok { status := 0, message := "Already Registered", created := [], responded429 := false }) ∧
    (env.userByEmail email = some false →
      sign_up env email first_name last_name redirect_to university major =
        .ok { status := 0, message := "Registered but disabled", created := [], responded429 := false }) ∧
    (env.userByEmail email = none → env.portalDefaultRole = "" →
      pyLower (pyStrip email) ∉ STANDARD_USERS →
      ∀ res, sign_up env email first_name last_name redirect_to university major = .ok res →
        res.status = 1 ∧ res.message = "Please check your email for verification" ∧
        res.created.length = 1 ∧
        res.created.all (fun u => u.enabled && (u.user_type == "Website User")) = true) := by
  refine ⟨?_, ?_, ?_⟩
  · intro hmail; simp [sign_up, hsd, hmail]
  · intro hmail; simp [sign_up, hsd, hmail]
  · intro hmail hrole hname res hres
    simp only [sign_up, hsd, hmail, hrole, ne_eq, not_true_eq_false, not_false_eq_true,
      if_false, ite_false, if_true, ite_true, Bool.false_eq_true, reduceIte] at hres
    split at hres
    · exact absurd hres (by simp)
    · cases hv : validate env { user :=
        { name := pyLower (pyStrip email)
          email := pyLower (pyStrip email)
          first_name := env.escapeHtml first_name
          last_name := env.escapeHtml last_name
          enabled := true
          university := university
          major := major
          new_password := env.randomPassword
          user_type := "Website User"
          send_welcome_email := true
          isNew := true
          flagsIgnorePasswordPolicy := true } } with
      | error e => rw [hv] at hres; exact absurd hres (by simp)
      | ok d1 =>
        rw [hv] at hres
        simp only [reduceIte] at hres
        have hres2 := (Except.ok.inj hres).symm
        subst hres2
        have hd1 := validate_ok_eq hv
        subst hd1
        refine ⟨rfl, rfl, rfl, ?_⟩
        simp only [List.all_cons, List.all_nil, Bool.and_true]
        have hA : ¬ (pyLower (pyStrip email) = "Administrator") := fun h => hname (by rw [h]; decide)
        have hG : ¬ (pyLower (pyStrip email) = "Guest") := fun h => hname (by rw [h]; decide)
        have hut : (validateOk env { user :=
            { name := pyLower (pyStrip email)
              email := pyLower (pyStrip email)
              first_name := env.escapeHtml first_name
              last_name := env.escapeHtml last_name
              enabled := true
              university := university
              major := major
              new_password := env.randomPassword
              user_type := "Website User"
              send_welcome_email := true
              isNew := true
              flagsIgnorePasswordPolicy := true } }).user.user_type = "Website User" := by
          rw [validateOk, show validateSteps =
            [ .clearNewPassword, .passwordStrengthTest, .validateEmail,
              .moveRoleProfileNameToRoleProfiles, .populateRoleProfileRoles,
              .checkRolesAdded] ++ .setSystemUser ::
            [ .setFullName, .checkEnableDisable, .ensureUniqueRoles, .ensureUniqueRoleProfiles,
              .removeAllRolesForGuest, .validateUsername, .removeDisabledRoles,
              .validateUserEmailInbox, .askPassUpdate, .validateAllowedModules,
              .validateUserImage, .setTimeZone, .normalizeLanguage,
              .setSocialLoginUserid] from rfl, runPure_append, runPure_cons]
          rw [runPure_user_type _ _ _ (by decide)]
          simp only [runPure_cons, runPure_nil, stepOk, clear_new_password, set_email_from_name,
            move_role_profile_name_to_role_profiles, populate_role_profile_roles,
            check_roles_added, set_system_user, has_desk_access, overriddenUserType]
          simp [hA, hG]
        have he2 : (validateOk env { user :=
            { name := pyLower (pyStrip email)
              email := pyLower (pyStrip email)
              first_name := env.escapeHtml first_name
              last_name := env.escapeHtml last_name
              enabled := true
              university := university
              major := major
              new_password := env.randomPassword
              user_type := "Website User"
              send_welcome_email := true
              isNew := true
              flagsIgnorePasswordPolicy := true } }).user.enabled = true :=
          runPure_enabled env validateSteps _
        rw [hut, he2]
        rfl

/-- C9 witness: a novel email in an environment whose welcome-email
dispatch fails still returns status 1 and creates exactly one enabled
Website User. -/
theorem C9_sign_up_witness :
    c9envW.signupDisabled = false ∧
    c9envW.userByEmail "w9@e.co" = none ∧
    c9envW.portalDefaultRole = "" ∧
    c9envW.welcomeEmailFails = true ∧
    sign_up c9envW "w9@e.co" "W" "L" "" "" "" = .ok c9resW ∧
    c9resW.status = 1 ∧
    c9resW.message = "Please check your email for verification" ∧
    c9resW.created.length = 1 ∧
    c9resW.created.all (fun u => u.enabled && (u.user_type == "Website User")) = true := by
  have hok : sign_up c9envW "w9@e.co" "W" "L" "" "" "" = .ok c9resW := rfl
  have h := (C9_sign_up c9envW "w9@e.co" "W" "L" "" "" "" rfl).2.2 rfl rfl (by decide)
    c9resW hok
  exact ⟨rfl, rfl, rfl, rfl, hok, h.1, h.2.1, h.2.2.1, h.2.2.2⟩

/-! Claim C10: duplicate usernames never fail a save. -/

/-- C10: the username step cannot raise; when the (stripped) username
candidate collides with another user's username, it is silently reset to
the empty string, with an informational message (and a suggestion when
one is available) only for System Users, and no message otherwise. -/
theorem C10_duplicate_username_reset (env : Env) (d : DocState)
    (hc : usernameCandidate env d.user ≠ "")
    (ht : env.usernameTaken (stripSpaceAt (usernameCandidate env d.user)) = true) :
    stepError .validateUsername env d = none ∧
    (validate_username env d).user.username = "" ∧
    (d.user.user_type = "System User" →
      ("Username " ++ stripSpaceAt (usernameCandidate env d.user) ++ " already exists")
        ∈ (validate_username env d).msgs) ∧
    (d.user.user_type ≠ "System User" → (validate_username env d).msgs = d.msgs) := by
  refine ⟨rfl, ?_, ?_, ?_⟩
  · simp [validate_username, hc, ht]
  · intro hsys
    simp [validate_username, hc, ht, hsys]
  · intro hsys
    simp [validate_username, hc, ht, hsys]

/-- C10 witness: a System User whose username `john` is taken finishes
the step without raising, with the username blanked and the
informational message emitted. -/
theorem C10_duplicate_username_reset_witness :
    usernameCandidate c10env c10doc.user ≠ "" ∧
    c10env.usernameTaken (stripSpaceAt (usernameCandidate c10env c10doc.user)) = true ∧
    stepError .validateUsername c10env c10doc = none ∧
    (validate_username c10env c10doc).user.username = "" ∧
    ("Username john already exists") ∈ (validate_username c10env c10doc).msgs := by
  have h := C10_duplicate_username_reset c10env c10doc (by decide) (by decide)
  refine ⟨by decide, by decide, h.1, h.2.1, ?_⟩
  have h2 := h.2.2.1 rfl
  simpa using h2

end FrappeUser
